import Mathlib

/-!
Shallow embedding of the doctor-assignment and consultation-recommendation
subsystem of the MediMind backend (Python/FastAPI over Firestore), together
with proofs about its behaviour.

Modelling conventions:
- Firestore collections are lists of records; a document id is a field of the
  record.  A keyed set (upsert) removes any record with the same id and
  appends the new one; an update maps over the records with the matching id.
- Python dict fields read with a default, such as get with a fallback, are
  modelled either as Option fields (when the code distinguishes missing from
  empty) or as String fields where the empty string encodes absent or null,
  matching the truthiness tests the code performs.
- Nondeterministic fresh values (uuid4, the sha256 room hash, the server
  timestamp) are passed in as explicit parameters.
- Exceptions raised by collaborators are modelled by explicit Boolean
  failure flags at the points where the code has a try/except boundary.
- HTTP handlers return an Except value paired with the post-state; raising
  an HTTPException corresponds to returning an error together with the state
  at the moment of the raise.
- Python list.sort is a stable sort; it is embedded as List.insertionSort,
  which is also stable, and a stable sort of a list with a fixed key is
  uniquely determined, so the two agree exactly.
-/

namespace MediMind

/-- A user document in the users collection.  The field assigned_doctor uses
the empty string for absent or null, matching the code, which reads it with
an empty-string default and tests truthiness. -/
structure User where
  id : String
  role : String
  profile_complete : Bool
  full_name : Option String
  assigned_doctor : String
  assigned_doctor_name : String
  assigned_at : Nat
deriving DecidableEq, Repr

/-- A relationship document, keyed by the deterministic id doctor_patient. -/
structure Relationship where
  id : String
  doctor_id : String
  patient_id : String
  doctor_name : String
  status : String
  created_at : Nat
deriving DecidableEq, Repr

/-- A report document (only the fields the recommendation engine reads). -/
structure Report where
  id : String
  user_id : String
  status : String
  risk_level : String
  created_at : Nat
deriving DecidableEq, Repr

/-- A consultation recommendation document. -/
structure Recommendation where
  id : String
  patient_id : String
  doctor_id : String
  report_id : Option String
  reason_type : String
  risk_level : String
  urgency : String
  summary : String
  doctor_name : String
  patient_name : String
  status : String
  consultation_id : String
  created_at : Nat
deriving DecidableEq, Repr

/-- An appointment document. -/
structure Appointment where
  id : String
  consultation_id : String
  patient_id : String
  patient_name : String
  doctor_id : String
  doctor_name : String
  date : String
  time : String
  type : String
  reason : String
  status : String
  report_id : String
  room_name : String
  room_url : String
  notes : String
  created_at : Nat
deriving DecidableEq, Repr

/-- A consultation document. -/
structure Consultation where
  id : String
  appointment_id : String
  patient_id : String
  doctor_id : String
  report_id : String
  recommendation_id : String
  room_name : String
  room_url : String
  status : String
  created_at : Nat
  updated_at : Nat
deriving DecidableEq, Repr

/-- A manual availability slot in the availability subcollection of a doctor. -/
structure Slot where
  doctor_id : String
  id : String
  status : String
deriving DecidableEq, Repr

/-- A conversation document (only the participants matter here). -/
structure Conversation where
  participant_1 : String
  participant_2 : String
deriving DecidableEq, Repr

/-- The Firestore state visible to the subsystem. -/
structure DB where
  users : List User
  relationships : List Relationship
  reports : List Report
  recommendations : List Recommendation
  appointments : List Appointment
  consultations : List Consultation
  slots : List Slot
  conversations : List Conversation
deriving DecidableEq, Repr

/-- An HTTPException: status code and detail message. -/
structure HttpError where
  code : Nat
  detail : String
deriving DecidableEq, Repr

/-- ASCII lower-casing of one character, as Char.toLower does. -/
def lowerChar (c : Char) : Char :=
  if 65 ≤ c.toNat ∧ c.toNat ≤ 90 then Char.ofNat (c.toNat + 32) else c

/-- ASCII upper-casing of one character, as Char.toUpper does. -/
def upperChar (c : Char) : Char :=
  if 97 ≤ c.toNat ∧ c.toNat ≤ 122 then Char.ofNat (c.toNat - 32) else c

/-- Python str.lower restricted to the ASCII strings the code compares. -/
def pyLower (s : String) : String := ⟨s.data.map lowerChar⟩

/-- Python str.capitalize: first character upper-cased, the rest lower-cased. -/
def pyCapitalize (s : String) : String :=
  match s.data with
  | [] => ""
  | c :: cs => ⟨upperChar c :: cs.map lowerChar⟩

/-- Python x or y for an optional string x: y when x is missing or empty. -/
def pyOrElse (x : Option String) (y : String) : String :=
  match x with
  | some s => if s = "" then y else s
  | none => y

/-- Truthiness of an optional string, as Python tests it. -/
def pyTruthy (x : Option String) : Bool :=
  match x with
  | some s => s ≠ ""
  | none => false

-- ===================== Load Estimator =====================

/-- The doctors considered by the load estimator: the query
role == doctor and profile_complete == true over the users collection. -/
def eligibleDoctors (db : DB) : List User :=
  db.users.filter (fun u => u.role == "doctor" && u.profile_complete)

/-- The count query of the load estimator: users with role patient whose
assigned_doctor equals the given doctor id. -/
def patientCount (db : DB) (doctorId : String) : Nat :=
  (db.users.filter (fun u => u.role == "patient" && u.assigned_doctor == doctorId)).length

/-- The per-doctor entry built by get_least_loaded_doctor. -/
structure DoctorLoad where
  id : String
  full_name : String
  count : Nat
deriving DecidableEq, Repr

/-- The entry built for one doctor: id, display name with the Unknown
default, and the patient count. -/
def mkLoad (db : DB) (d : User) : DoctorLoad :=
  ⟨d.id, d.full_name.getD "Unknown", patientCount db d.id⟩

/-- The doctor_loads list, in enumeration order of the eligible doctors. -/
def doctorLoads (db : DB) : List DoctorLoad :=
  (eligibleDoctors db).map (mkLoad db)

/-- The comparison key of the sort: ascending patient count. -/
abbrev loadLe (a b : DoctorLoad) : Prop := a.count ≤ b.count

/-- Embedding of AssignmentService.get_least_loaded_doctor: enumerate the
eligible doctors, count the patients of each, stably sort by count and
return the first entry; None when no eligible doctor exists.  A read
failure also yields None; reads are pure here, so that branch is vacuous. -/
def get_least_loaded_doctor (db : DB) : Option DoctorLoad :=
  let doctors := eligibleDoctors db
  if doctors.isEmpty then none
  else (List.insertionSort loadLe (doctorLoads db)).head?

/-- The first-seen minimum of a nonempty list of loads: the reference
characterisation of the head of a stable sort by count. -/
def firstMinLoad (x : DoctorLoad) : List DoctorLoad → DoctorLoad
  | [] => x
  | y :: ys =>
    let m := firstMinLoad y ys
    if x.count ≤ m.count then x else m

-- ===================== Assignment Engine =====================

/-- The patient-record update performed by assign_doctor_to_patient. -/
def applyAssignment (dd : DoctorLoad) (now : Nat) (u : User) : User :=
  { u with assigned_doctor := dd.id, assigned_doctor_name := dd.full_name, assigned_at := now }

/-- Embedding of chat_service.initialize_conversation restricted to the state
it touches: create the conversation unless one with the same pair of
participants already exists. -/
def initialize_conversation (db : DB) (p1 p2 : String) : DB :=
  if db.conversations.any (fun c =>
      (c.participant_1 == p1 && c.participant_2 == p2) ||
      (c.participant_1 == p2 && c.participant_2 == p1)) then db
  else { db with conversations := db.conversations ++ [⟨p1, p2⟩] }

/-- Embedding of AssignmentService.assign_doctor_to_patient.  The flag
relFails injects a raised exception at the relationship set call: the
surrounding try/except catches it after the patient update has landed and
returns None.  The flag chatFails injects a failure of the chat
initialization, which its dedicated inner try/except swallows.  An update of
a missing patient document raises before writing anything, which the outer
except turns into None with the state unchanged. -/
def assign_doctor_to_patient (db : DB) (now : Nat) (patient_uid : String)
    (relFails chatFails : Bool) : Option String × DB :=
  match get_least_loaded_doctor db with
  | none => (none, db)
  | some dd =>
    match db.users.find? (fun u => u.id == patient_uid) with
    | none => (none, db)
    | some _ =>
      let db1 : DB := { db with
        users := db.users.map (fun u => if u.id == patient_uid then applyAssignment dd now u else u) }
      if relFails then (none, db1)
      else
        let relId := dd.id ++ "_" ++ patient_uid
        let db2 : DB := { db1 with
          relationships := db1.relationships.filter (fun r => r.id ≠ relId) ++
            [⟨relId, dd.id, patient_uid, dd.full_name, "active", now⟩] }
        let db3 : DB := if chatFails then db2 else initialize_conversation db2 patient_uid dd.id
        (some dd.id, db3)

/-- Embedding of the POST assign-doctor endpoint (manual_assign_doctor):
404 when the user is missing, a no-op success reporting the current doctor
when assigned_doctor is already truthy, otherwise run the assignment service
and map None to a 503. -/
def manual_assign_doctor (db : DB) (now : Nat) (uid : String)
    (relFails chatFails : Bool) : Except HttpError (String × String) × DB :=
  match db.users.find? (fun u => u.id == uid) with
  | none => (.error ⟨404, "User not found"⟩, db)
  | some u =>
    if u.assigned_doctor ≠ "" then
      (.ok ("Doctor already assigned", u.assigned_doctor), db)
    else
      match assign_doctor_to_patient db now uid relFails chatFails with
      | (none, db1) => (.error ⟨503, "No doctors available at the moment. Please try again later."⟩, db1)
      | (some did, db1) => (.ok ("Doctor assigned successfully", did), db1)

-- ===================== Recommendation Engine =====================

/-- The analysis dict handed to the recommendation engine: the fields it
reads, each optional because the code reads them with defaults. -/
structure Analysis where
  risk_level : Option String
  summary : Option String
deriving DecidableEq, Repr

/-- The urgency derivation of generate_recommendation. -/
def deriveUrgency (risk_level : String) : String :=
  if pyLower risk_level = "high" then "urgent"
  else if pyLower risk_level = "low" then "normal"
  else "follow_up"

/-- Embedding of generate_recommendation: build the recommendation record
with derived urgency and status active and set it under the fresh id recId
(uuid4, passed in as a parameter). -/
def generate_recommendation (db : DB) (now : Nat) (recId : String)
    (user_id doctor_id : String) (report_id : Option String)
    (reason_type risk_level summary doctor_name patient_name : String) : DB :=
  let rec_ : Recommendation :=
    { id := recId
      patient_id := user_id
      doctor_id := doctor_id
      report_id := report_id
      reason_type := reason_type
      risk_level := risk_level
      urgency := deriveUrgency risk_level
      summary := summary
      doctor_name := doctor_name
      patient_name := patient_name
      status := "active"
      consultation_id := ""
      created_at := now }
  { db with recommendations := db.recommendations.filter (fun r => r.id ≠ recId) ++ [rec_] }

/-- The elevated-report count of auto_recommend_from_report: the code streams
the reports of the user with status completed and counts those whose
risk_level lower-cases to medium or high.  The thirty-day cutoff computed in
the source is never used in the query or the loop, so no date filter appears
here. -/
def elevatedCount (db : DB) (user_id : String) : Nat :=
  (db.reports.filter (fun r => r.user_id == user_id && r.status == "completed" &&
    (pyLower r.risk_level == "medium" || pyLower r.risk_level == "high"))).length

/-- Embedding of auto_recommend_from_report.  The parameter now stands for
datetime.utcnow; the source computes a thirty-days-ago value from it that it
never uses.  The fresh uuid for the created recommendation is recId. -/
def auto_recommend_from_report (db : DB) (now : Nat) (recId : String)
    (report_id user_id : String) (analysis : Analysis) : DB :=
  let risk := pyLower (pyOrElse analysis.risk_level "")
  if ¬(risk = "medium" ∨ risk = "high") then db
  else
    match db.users.find? (fun u => u.id == user_id) with
    | none => db
    | some user_data =>
      let doctor_id := user_data.assigned_doctor
      if doctor_id = "" then db
      else
        let doctor_name :=
          match db.users.find? (fun u => u.id == doctor_id) with
          | some d => d.full_name.getD "Doctor"
          | none => "Doctor"
        let patient_name := user_data.full_name.getD "Patient"
        let reason_type := if risk = "high" then "ai_escalation" else "post_report"
        let summary_text := analysis.summary.getD "Abnormal values detected in your report."
        let elevated := elevatedCount db user_id
        let reason_type := if elevated ≥ 2 then "follow_up" else reason_type
        let summary_text := if elevated ≥ 2 then
            "Multiple reports with elevated risk in the past 30 days. Follow-up recommended."
          else summary_text
        generate_recommendation db now recId user_id doctor_id (some report_id)
          reason_type (pyCapitalize risk) summary_text doctor_name patient_name

-- ===================== Booking Engine =====================

/-- The request body of the book endpoint.  Fields the code reads with an
empty-string default are String; fields read with a None default are
Option String. -/
structure BookBody where
  doctor_id : String
  patient_id : String
  date : String
  time : String
  reason : Option String
  recommendation_id : Option String
  report_id : Option String
  slot_id : Option String
deriving DecidableEq, Repr

/-- The caller as seen by the handler: uid, role and the two name fields the
code reads from the current-user document. -/
structure Caller where
  uid : String
  role : String
  full_name : Option String
  name : Option String
deriving DecidableEq, Repr

/-- The slot-marking step of book_consultation: when a slot id is supplied
and the slot exists in the availability subcollection of the doctor, its
status becomes booked. -/
def markSlot (db : DB) (doctor_id : String) (slot_id : Option String) : DB :=
  if pyTruthy slot_id then
    let sid := slot_id.getD ""
    if db.slots.any (fun s => s.doctor_id == doctor_id && s.id == sid) then
      { db with slots := db.slots.map (fun s =>
          if s.doctor_id == doctor_id && s.id == sid then { s with status := "booked" } else s) }
    else db
  else db

/-- The recommendation step of book_consultation: when a recommendation id is
supplied and the document exists, set status booked and link the new
consultation — with no check of the current status. -/
def markRecommendationBooked (db : DB) (consultationId : String)
    (recommendation_id : Option String) : DB :=
  if pyTruthy recommendation_id then
    let rid := recommendation_id.getD ""
    if db.recommendations.any (fun r => r.id == rid) then
      { db with recommendations := db.recommendations.map (fun r =>
          if r.id == rid then { r with status := "booked", consultation_id := consultationId } else r) }
    else db
  else db

/-- Embedding of book_consultation.  Fresh values passed as parameters:
consultationId and apptId for the two uuid4 draws, roomHash for the
truncated sha256 of the session id and current time (opaque by contract, only
used to form the room name), now for the server timestamp. -/
def book_consultation (db : DB) (caller : Caller) (body : BookBody)
    (consultationId roomHash apptId : String) (now : Nat) :
    Except HttpError Appointment × DB :=
  let uid := caller.uid
  let role := caller.role
  let doctor_id := body.doctor_id
  let patient_id := if role = "patient" then uid else body.patient_id
  let date := body.date
  let time_slot := body.time
  let reason := body.reason.getD "Video consultation"
  let recommendation_id := body.recommendation_id
  let report_id := body.report_id
  let slot_id := body.slot_id
  if doctor_id = "" ∨ date = "" ∨ time_slot = "" then
    (.error ⟨400, "doctor_id, date, and time are required"⟩, db)
  else
    let db1 : DB := markSlot db doctor_id slot_id
    let patient_name :=
      if role = "patient" then pyOrElse caller.full_name (caller.name.getD "Patient")
      else
        match db1.users.find? (fun u => u.id == patient_id) with
        | some p => p.full_name.getD "Patient"
        | none => "Patient"
    let doctor_name :=
      if role = "patient" then
        match db1.users.find? (fun u => u.id == doctor_id) with
        | some d => d.full_name.getD "Doctor"
        | none => "Doctor"
      else pyOrElse caller.full_name (caller.name.getD "Doctor")
    let room_name := "medimind-" ++ roomHash
    let room_url := "https://meet.jit.si/" ++ room_name
    let appt : Appointment :=
      { id := apptId
        consultation_id := consultationId
        patient_id := patient_id
        patient_name := patient_name
        doctor_id := doctor_id
        doctor_name := doctor_name
        date := date
        time := time_slot
        type := "video"
        reason := reason
        status := "upcoming"
        report_id := report_id.getD ""
        room_name := room_name
        room_url := room_url
        notes := ""
        created_at := now }
    let db2 : DB := { db1 with
      appointments := db1.appointments.filter (fun a => a.id ≠ apptId) ++ [appt] }
    let consultation : Consultation :=
      { id := consultationId
        appointment_id := apptId
        patient_id := patient_id
        doctor_id := doctor_id
        report_id := report_id.getD ""
        recommendation_id := recommendation_id.getD ""
        room_name := room_name
        room_url := room_url
        status := "scheduled"
        created_at := now
        updated_at := 0 }
    let db3 : DB := { db2 with
      consultations := db2.consultations.filter (fun c => c.id ≠ consultationId) ++ [consultation] }
    let db4 : DB := markRecommendationBooked db3 consultationId recommendation_id
    (.ok appt, db4)

/-- Embedding of the PATCH consultation endpoint (update_consultation).  The
body is an association list of field names to string values; the allowed set
is the single field status.  An update of a linked appointment document that
does not exist would raise inside Firestore, which FastAPI reports as a 500
after the consultation update already landed. -/
def update_consultation (db : DB) (now : Nat) (uid consultation_id : String)
    (body : List (String × String)) : Except HttpError String × DB :=
  match db.consultations.find? (fun c => c.id == consultation_id) with
  | none => (.error ⟨404, "Consultation not found"⟩, db)
  | some data =>
    if data.patient_id ≠ uid ∧ data.doctor_id ≠ uid then
      (.error ⟨403, "Not authorized"⟩, db)
    else
      match (body.filter (fun kv => kv.1 == "status")).head? with
      | none => (.error ⟨400, "No valid fields"⟩, db)
      | some kv =>
        let new_status := kv.2
        if ¬(new_status = "in_progress" ∨ new_status = "completed" ∨ new_status = "cancelled") then
          (.error ⟨400, "Invalid status"⟩, db)
        else
          let db1 : DB := { db with consultations := db.consultations.map (fun c =>
              if c.id == consultation_id then { c with status := new_status, updated_at := now } else c) }
          let appt_id := data.appointment_id
          if appt_id ≠ "" ∧ (new_status = "completed" ∨ new_status = "cancelled") then
            if db1.appointments.any (fun a => a.id == appt_id) then
              let appt_status := if new_status = "completed" then "completed" else "cancelled"
              let db2 : DB := { db1 with appointments := db1.appointments.map (fun a =>
                  if a.id == appt_id then { a with status := appt_status } else a) }
              (.ok ("Consultation " ++ new_status), db2)
            else (.error ⟨500, "Internal Server Error"⟩, db1)
          else (.ok ("Consultation " ++ new_status), db1)

-- ===================== Concrete fixtures =====================

/-- Doctor dA, profile complete. -/
def exDoctorA : User := ⟨"dA", "doctor", true, some "Doctor A", "", "", 0⟩

/-- Doctor dB, profile complete. -/
def exDoctorB : User := ⟨"dB", "doctor", true, some "Doctor B", "", "", 0⟩

/-- Patient p1 with no assigned doctor. -/
def exPatient1 : User := ⟨"p1", "patient", true, some "Pat One", "", "", 0⟩

/-- Patient p2, assigned to dA. -/
def exPatient2 : User := ⟨"p2", "patient", true, some "Pat Two", "dA", "Doctor A", 0⟩

/-- Patient p3, assigned to dA. -/
def exPatient3 : User := ⟨"p3", "patient", true, some "Pat Three", "dA", "Doctor A", 0⟩

/-- The assignment scenario of the spec: dA carries two patients, dB none,
p1 is unassigned. -/
def exDbAssign : DB := ⟨[exDoctorA, exDoctorB, exPatient1, exPatient2, exPatient3], [], [], [], [], [], [], []⟩

/-- A directory in which p1 is already assigned to dA. -/
def exDbAssigned : DB :=
  ⟨[exDoctorA, ⟨"p1", "patient", true, some "Pat One", "dA", "Doctor A", 0⟩], [], [], [], [], [], [], []⟩

/-- A patient with an assigned doctor and no report history. -/
def exDbRec : DB :=
  ⟨[⟨"d1", "doctor", true, some "Doctor One", "", "", 0⟩,
    ⟨"p2", "patient", true, some "Pat Two", "d1", "Doctor One", 0⟩], [], [], [], [], [], [], []⟩

/-- A patient with an assigned doctor and two completed High reports whose
creation times lie far more than thirty days before the evaluation time used
in the theorems. -/
def exDbElevated : DB :=
  ⟨[⟨"d1", "doctor", true, some "Doctor One", "", "", 0⟩,
    ⟨"p1", "patient", true, some "Pat One", "d1", "Doctor One", 0⟩],
   [], [⟨"r1", "p1", "completed", "High", 0⟩, ⟨"r2", "p1", "completed", "High", 0⟩], [], [], [], [], []⟩

/-- A store holding a single recommendation that is already dismissed. -/
def exDbBook : DB :=
  ⟨[], [], [], [⟨"r1", "p1", "d1", none, "post_report", "Medium", "follow_up", "s", "Doc", "Pat", "dismissed", "", 0⟩],
   [], [], [], []⟩

/-- The booking caller used in the examples: patient p1. -/
def exCaller : Caller := ⟨"p1", "patient", some "Pat One", none⟩

/-- A booking body that references recommendation r1. -/
def exBody : BookBody := ⟨"d1", "", "2026-01-01", "09:00 - 09:30", none, some "r1", none, none⟩

/-- A booking body with an empty date. -/
def exBodyNoDate : BookBody := ⟨"d1", "", "", "09:00 - 09:30", none, some "r1", none, none⟩

/-- A scheduled consultation c1 linked to appointment a1. -/
def exCons : Consultation := ⟨"c1", "a1", "p1", "d1", "", "", "room", "url", "scheduled", 0, 0⟩

/-- The upcoming appointment a1 linked to consultation c1. -/
def exAppt : Appointment :=
  ⟨"a1", "c1", "p1", "Pat", "d1", "Doc", "2026-01-01", "09:00 - 09:30", "video", "r", "upcoming", "", "room", "url", "", 0⟩

/-- A store holding the linked pair c1 and a1. -/
def exDbCons : DB := ⟨[], [], [], [], [exAppt], [exCons], [], []⟩

-- ===================== Helper lemmas =====================

/-- The head of the stable sort of a nonempty load list is its first-seen
minimum. -/
theorem insertionSort_head (x : DoctorLoad) (xs : List DoctorLoad) :
    (List.insertionSort loadLe (x :: xs)).head? = some (firstMinLoad x xs) := by
  induction xs generalizing x with
  | nil => rfl
  | cons y ys ih =>
    show (List.orderedInsert loadLe x (List.insertionSort loadLe (y :: ys))).head?
        = some (firstMinLoad x (y :: ys))
    cases h : List.insertionSort loadLe (y :: ys) with
    | nil =>
      have := ih y
      rw [h] at this
      simp at this
    | cons m t =>
      have hm : m = firstMinLoad y ys := by
        have := ih y
        rw [h] at this
        simpa using this
      simp only [firstMinLoad, List.orderedInsert]
      rw [← hm]
      by_cases hle : x.count ≤ m.count
      · rw [if_pos hle, if_pos hle]
        rfl
      · rw [if_neg hle, if_neg hle]
        rfl

/-- The first-seen minimum is a member of the list. -/
theorem firstMinLoad_mem (x : DoctorLoad) (xs : List DoctorLoad) :
    firstMinLoad x xs ∈ x :: xs := by
  induction xs generalizing x with
  | nil => simp [firstMinLoad]
  | cons y ys ih =>
    simp only [firstMinLoad]
    by_cases h : x.count ≤ (firstMinLoad y ys).count
    · rw [if_pos h]
      exact List.mem_cons_self _ _
    · rw [if_neg h]
      exact List.mem_cons_of_mem _ (ih y)

/-- The first-seen minimum has minimal count. -/
theorem firstMinLoad_le (x : DoctorLoad) (xs : List DoctorLoad) :
    ∀ y ∈ x :: xs, (firstMinLoad x xs).count ≤ y.count := by
  induction xs generalizing x with
  | nil =>
    intro y hy
    rcases List.mem_cons.mp hy with rfl | hy'
    · exact le_refl _
    · simp at hy'
  | cons z zs ih =>
    intro y hy
    simp only [firstMinLoad]
    by_cases h : x.count ≤ (firstMinLoad z zs).count
    · rw [if_pos h]
      rcases List.mem_cons.mp hy with rfl | hy'
      · exact le_refl _
      · exact le_trans h (ih z y hy')
    · rw [if_neg h]
      rcases List.mem_cons.mp hy with rfl | hy'
      · exact le_of_lt (Nat.lt_of_not_le h)
      · exact ih z y hy'

/-- Every element strictly before the first-seen minimum has a strictly
larger count: the tie-break goes to the first-seen entry. -/
theorem firstMinLoad_split (x : DoctorLoad) (xs : List DoctorLoad) :
    ∃ l₁ l₂, x :: xs = l₁ ++ firstMinLoad x xs :: l₂ ∧
      ∀ y ∈ l₁, (firstMinLoad x xs).count < y.count := by
  induction xs generalizing x with
  | nil => exact ⟨[], [], by simp [firstMinLoad], by simp⟩
  | cons z zs ih =>
    simp only [firstMinLoad]
    by_cases h : x.count ≤ (firstMinLoad z zs).count
    · rw [if_pos h]
      exact ⟨[], z :: zs, rfl, by simp⟩
    · rw [if_neg h]
      obtain ⟨l₁, l₂, heq, hlt⟩ := ih z
      refine ⟨x :: l₁, l₂, ?_, ?_⟩
      · rw [List.cons_append, ← heq]
      · intro y hy
        rcases List.mem_cons.mp hy with rfl | hy'
        · exact Nat.lt_of_not_le h
        · exact hlt y hy'

/-- Closed form of the load estimator on a state with at least one eligible
doctor. -/
theorem get_least_eq (db : DB) (e : User) (es : List User)
    (he : eligibleDoctors db = e :: es) :
    get_least_loaded_doctor db = some (firstMinLoad (mkLoad db e) (es.map (mkLoad db))) := by
  have hload : doctorLoads db = mkLoad db e :: es.map (mkLoad db) := by
    simp [doctorLoads, he]
  simp only [get_least_loaded_doctor, he, List.isEmpty_cons, Bool.false_eq_true, if_false]
  rw [hload, insertionSort_head]

/-- The load estimator returns an entry of the doctor_loads list. -/
theorem get_least_mem (db : DB) (dd : DoctorLoad)
    (h : get_least_loaded_doctor db = some dd) : dd ∈ doctorLoads db := by
  cases he : eligibleDoctors db with
  | nil => simp [get_least_loaded_doctor, he] at h
  | cons e es =>
    rw [get_least_eq db e es he] at h
    have hload : doctorLoads db = mkLoad db e :: es.map (mkLoad db) := by
      simp [doctorLoads, he]
    rw [hload]
    injection h with h
    rw [← h]
    exact firstMinLoad_mem _ _

/-- Finding by a Boolean key in a list mapped by a key-preserving guarded
update returns the updated first find. -/
theorem find?_map_guard {α : Type} (l : List α) (p : α → Bool) (f : α → α)
    (hf : ∀ a, p (f a) = p a) :
    (l.map (fun a => if p a then f a else a)).find? p = (l.find? p).map f := by
  induction l with
  | nil => rfl
  | cons a t ih =>
    by_cases h : p a = true
    · simp only [List.map_cons, if_pos h]
      rw [List.find?_cons_of_pos _ (by rw [hf]; exact h), List.find?_cons_of_pos _ h]
      rfl
    · simp only [List.map_cons, if_neg h]
      rw [List.find?_cons_of_neg _ h, List.find?_cons_of_neg _ h, ih]

/-- Conversation initialization never touches the users collection. -/
theorem initialize_conversation_users (db : DB) (p1 p2 : String) :
    (initialize_conversation db p1 p2).users = db.users := by
  simp only [initialize_conversation]
  split <;> rfl

/-- Whatever the failure flags, once the load estimator has selected a
doctor and the patient document exists, the users collection after
assign_doctor_to_patient is the original with the assignment applied to the
patient document. -/
theorem assign_users (db : DB) (now : Nat) (uid : String) (rf cf : Bool)
    (dd : DoctorLoad) (u : User)
    (hdd : get_least_loaded_doctor db = some dd)
    (hu : db.users.find? (fun v => v.id == uid) = some u) :
    (assign_doctor_to_patient db now uid rf cf).2.users
      = db.users.map (fun v => if v.id == uid then applyAssignment dd now v else v) := by
  simp only [assign_doctor_to_patient, hdd, hu]
  cases rf with
  | true => rfl
  | false =>
    cases cf with
    | true => rfl
    | false => exact initialize_conversation_users _ _ _

/-- The guarded update of the assignment preserves the user id. -/
theorem applyAssignment_id (dd : DoctorLoad) (now : Nat) (uid : String) (u : User) :
    ((applyAssignment dd now u).id == uid) = (u.id == uid) := rfl

/-- After a successful assignment, the patient document carries the selected
doctor, and the selection plus patient lookup succeeded. -/
theorem assign_some (db : DB) (now : Nat) (uid : String) (rf cf : Bool)
    (did : String) (db' : DB)
    (h : assign_doctor_to_patient db now uid rf cf = (some did, db')) :
    ∃ dd u, get_least_loaded_doctor db = some dd ∧ did = dd.id ∧
      db.users.find? (fun v => v.id == uid) = some u ∧
      db'.users.find? (fun v => v.id == uid) = some (applyAssignment dd now u) := by
  cases hdd : get_least_loaded_doctor db with
  | none =>
    simp only [assign_doctor_to_patient, hdd] at h
    simp at h
  | some dd =>
    cases hu : db.users.find? (fun v => v.id == uid) with
    | none =>
      simp only [assign_doctor_to_patient, hdd, hu] at h
      simp at h
    | some u =>
      refine ⟨dd, u, rfl, ?_, rfl, ?_⟩
      · simp only [assign_doctor_to_patient, hdd, hu] at h
        cases rf with
        | true => simp at h
        | false =>
          rw [Prod.mk.injEq] at h
          have h1 := h.1
          injection h1 with h1
          exact h1.symm
      · have husers := assign_users db now uid rf cf dd u hdd hu
        have hdb' : (assign_doctor_to_patient db now uid rf cf).2 = db' := by rw [h]
        rw [← hdb', husers, find?_map_guard _ _ _ (fun a => applyAssignment_id dd now uid a), hu]
        rfl

-- ===================== Claim theorems =====================

/-- C1: for every directory state with at least one eligible doctor, the
load estimator returns an entry of the doctor_loads list — which is built
from exactly the users with role doctor and profile_complete true, with the
count of users with role patient assigned to each — whose count is minimal,
the tie going to the first-seen doctor in enumeration order (every earlier
entry has a strictly larger count); consequently assign_doctor_to_patient
writes that doctor onto any existing patient record with no assigned
doctor. -/
theorem c1_least_loaded_assignment (db : DB) (hne : eligibleDoctors db ≠ []) :
    ∃ L, get_least_loaded_doctor db = some L ∧
      L ∈ doctorLoads db ∧
      (∀ y ∈ doctorLoads db, L.count ≤ y.count) ∧
      (∃ l₁ l₂, doctorLoads db = l₁ ++ L :: l₂ ∧ ∀ y ∈ l₁, L.count < y.count) ∧
      (∀ now uid rf cf u, db.users.find? (fun v => v.id == uid) = some u →
        u.assigned_doctor = "" →
        (assign_doctor_to_patient db now uid rf cf).2.users.find? (fun v => v.id == uid)
          = some (applyAssignment L now u)) := by
  cases he : eligibleDoctors db with
  | nil => exact absurd he hne
  | cons e es =>
    have hload : doctorLoads db = mkLoad db e :: es.map (mkLoad db) := by
      simp [doctorLoads, he]
    have hglld := get_least_eq db e es he
    refine ⟨firstMinLoad (mkLoad db e) (es.map (mkLoad db)), hglld, ?_, ?_, ?_, ?_⟩
    · rw [hload]
      exact firstMinLoad_mem _ _
    · rw [hload]
      exact firstMinLoad_le _ _
    · rw [hload]
      exact firstMinLoad_split _ _
    · intro now uid rf cf u hu h0
      rw [assign_users db now uid rf cf _ u hglld hu,
        find?_map_guard _ _ _ (fun a => applyAssignment_id _ now uid a), hu]
      rfl

/-- C1 witness: the scenario of the spec — doctor dA carries two patients,
doctor dB none, and patient p1 is unassigned. -/
theorem c1_witness :
    eligibleDoctors exDbAssign ≠ [] ∧
    (∃ L, get_least_loaded_doctor exDbAssign = some L ∧
      L ∈ doctorLoads exDbAssign ∧
      (∀ y ∈ doctorLoads exDbAssign, L.count ≤ y.count) ∧
      (∃ l₁ l₂, doctorLoads exDbAssign = l₁ ++ L :: l₂ ∧ ∀ y ∈ l₁, L.count < y.count) ∧
      (∀ now uid rf cf u, exDbAssign.users.find? (fun v => v.id == uid) = some u →
        u.assigned_doctor = "" →
        (assign_doctor_to_patient exDbAssign now uid rf cf).2.users.find? (fun v => v.id == uid)
          = some (applyAssignment L now u))) :=
  ⟨by decide, c1_least_loaded_assignment exDbAssign (by decide)⟩

/-- C2: the manual assignment endpoint is idempotent.  Part one: for a
patient whose assigned_doctor is already non-empty the call is a no-op on
the state and returns the existing assignment.  Part two: whenever a call
succeeds, an immediately following call for the same patient is a no-op on
the state — so assigned_doctor is unchanged after the second call and no
second relationship document is created — and reports the doctor assigned
by the first call. -/
theorem c2_assign_idempotent (db : DB) (now now2 : Nat) (uid : String)
    (rf cf rf2 cf2 : Bool) (hids : ∀ v ∈ db.users, v.id ≠ "") :
    (∀ u, db.users.find? (fun v => v.id == uid) = some u → u.assigned_doctor ≠ "" →
      manual_assign_doctor db now uid rf cf = (.ok ("Doctor already assigned", u.assigned_doctor), db)) ∧
    (∀ m did db1, manual_assign_doctor db now uid rf cf = (.ok (m, did), db1) →
      manual_assign_doctor db1 now2 uid rf2 cf2 = (.ok ("Doctor already assigned", did), db1)) := by
  constructor
  · intro u hu hne
    simp only [manual_assign_doctor, hu, if_pos hne]
  · intro m did db1 h
    cases hu : db.users.find? (fun v => v.id == uid) with
    | none =>
      simp only [manual_assign_doctor, hu] at h
      rw [Prod.mk.injEq] at h
      exact Except.noConfusion h.1
    | some u =>
      by_cases hne : u.assigned_doctor ≠ ""
      · simp only [manual_assign_doctor, hu, if_pos hne] at h
        rw [Prod.mk.injEq] at h
        obtain ⟨hok, hdb⟩ := h
        injection hok with hok
        rw [Prod.mk.injEq] at hok
        subst hdb
        simp only [manual_assign_doctor, hu, hok.2]
        rw [if_pos (hok.2 ▸ hne)]
      · simp only [manual_assign_doctor, hu, if_neg hne] at h
        cases ha : assign_doctor_to_patient db now uid rf cf with
        | mk r dbx =>
          cases r with
          | none =>
            rw [ha] at h
            simp at h
          | some did0 =>
            rw [ha] at h
            rw [Prod.mk.injEq] at h
            obtain ⟨hok, hdb⟩ := h
            injection hok with hok
            rw [Prod.mk.injEq] at hok
            obtain ⟨dd, u0, hdd, hdid0, hu0, hfind⟩ := assign_some db now uid rf cf did0 dbx ha
            have hidne : did0 ≠ "" := by
              rw [hdid0]
              have hmem := get_least_mem db dd hdd
              obtain ⟨d, hd, hdl⟩ := List.mem_map.mp hmem
              have hd' : d ∈ db.users := (List.mem_filter.mp hd).1
              rw [← hdl]
              exact hids d hd'
            subst hdb
            have hassigned : (applyAssignment dd now u0).assigned_doctor = did0 := hdid0.symm
            simp only [manual_assign_doctor, hfind]
            rw [if_pos (by rw [hassigned]; exact hidne), hassigned, hok.2]

/-- C2 witness: patient p1 already assigned to dA; the call is a no-op
returning the existing assignment. -/
theorem c2_witness :
    (∀ v ∈ exDbAssigned.users, v.id ≠ "") ∧
    manual_assign_doctor exDbAssigned 7 "p1" false false
      = (.ok ("Doctor already assigned", "dA"), exDbAssigned) :=
  ⟨by decide,
    (c2_assign_idempotent exDbAssigned 7 8 "p1" false false false false (by decide)).1
      ⟨"p1", "patient", true, some "Pat One", "dA", "Doctor A", 0⟩ (by decide) (by decide)⟩

/-- When the gate passes — elevated verdict, existing patient, non-empty
assigned doctor — auto_recommend_from_report appends exactly one
recommendation, whose fields are characterised here. -/
theorem auto_recommend_creates (db : DB) (now : Nat) (recId report_id user_id : String)
    (analysis : Analysis) (u : User)
    (hrisk : pyLower (pyOrElse analysis.risk_level "") = "medium" ∨
      pyLower (pyOrElse analysis.risk_level "") = "high")
    (hu : db.users.find? (fun v => v.id == user_id) = some u)
    (hdoc : u.assigned_doctor ≠ "")
    (hfresh : ∀ r ∈ db.recommendations, r.id ≠ recId) :
    ∃ rec_, (auto_recommend_from_report db now recId report_id user_id analysis).recommendations
        = db.recommendations ++ [rec_] ∧
      rec_.id = recId ∧ rec_.patient_id = user_id ∧ rec_.doctor_id = u.assigned_doctor ∧
      rec_.status = "active" ∧ rec_.report_id = some report_id ∧
      rec_.risk_level = pyCapitalize (pyLower (pyOrElse analysis.risk_level "")) ∧
      rec_.urgency = deriveUrgency (pyCapitalize (pyLower (pyOrElse analysis.risk_level ""))) ∧
      rec_.reason_type = (if elevatedCount db user_id ≥ 2 then "follow_up"
        else if pyLower (pyOrElse analysis.risk_level "") = "high" then "ai_escalation"
        else "post_report") ∧
      rec_.summary = (if elevatedCount db user_id ≥ 2 then
          "Multiple reports with elevated risk in the past 30 days. Follow-up recommended."
        else analysis.summary.getD "Abnormal values detected in your report.") := by
  have hfilter : db.recommendations.filter (fun r => decide (r.id ≠ recId)) = db.recommendations :=
    List.filter_eq_self.mpr (fun a ha => decide_eq_true (hfresh a ha))
  simp only [auto_recommend_from_report, hu]
  rw [if_neg (not_not_intro hrisk), if_neg hdoc]
  simp only [generate_recommendation]
  exact ⟨_, by rw [hfilter], rfl, rfl, rfl, rfl, rfl, rfl, rfl, rfl, rfl⟩

/-- C3: auto_recommend_from_report creates a recommendation exactly when the
verdict lower-cases to medium or high, the patient document exists and its
assigned_doctor is non-empty; otherwise — in particular for a Low verdict,
and for an elevated verdict with no assigned doctor — the state is returned
unchanged, with no error. -/
theorem c3_recommendation_gate (db : DB) (now : Nat) (recId report_id user_id : String)
    (analysis : Analysis) :
    (¬(pyLower (pyOrElse analysis.risk_level "") = "medium" ∨
        pyLower (pyOrElse analysis.risk_level "") = "high") →
      auto_recommend_from_report db now recId report_id user_id analysis = db) ∧
    (db.users.find? (fun v => v.id == user_id) = none →
      auto_recommend_from_report db now recId report_id user_id analysis = db) ∧
    (∀ u, db.users.find? (fun v => v.id == user_id) = some u → u.assigned_doctor = "" →
      auto_recommend_from_report db now recId report_id user_id analysis = db) ∧
    (∀ u, (pyLower (pyOrElse analysis.risk_level "") = "medium" ∨
        pyLower (pyOrElse analysis.risk_level "") = "high") →
      db.users.find? (fun v => v.id == user_id) = some u → u.assigned_doctor ≠ "" →
      (∀ r ∈ db.recommendations, r.id ≠ recId) →
      ∃ rec_, (auto_recommend_from_report db now recId report_id user_id analysis).recommendations
          = db.recommendations ++ [rec_] ∧
        rec_.status = "active" ∧ rec_.patient_id = user_id ∧ rec_.doctor_id = u.assigned_doctor) := by
  refine ⟨?_, ?_, ?_, ?_⟩
  · intro h
    simp only [auto_recommend_from_report]
    rw [if_pos h]
  · intro h
    simp only [auto_recommend_from_report, h]
    exact ite_self db
  · intro u hu h0
    simp only [auto_recommend_from_report, hu]
    rw [if_pos h0]
    exact ite_self db
  · intro u hrisk hu hdoc hfresh
    obtain ⟨rec_, h1, _, h3, h4, h5, _⟩ :=
      auto_recommend_creates db now recId report_id user_id analysis u hrisk hu hdoc hfresh
    exact ⟨rec_, h1, h5, h3, h4⟩

/-- C3 witness: the spec scenario — patient p2 assigned to d1, High verdict,
summary glucose critical — creates one active recommendation for the pair. -/
theorem c3_witness :
    (pyLower (pyOrElse (Analysis.mk (some "High") (some "glucose critical")).risk_level "") = "medium" ∨
      pyLower (pyOrElse (Analysis.mk (some "High") (some "glucose critical")).risk_level "") = "high") ∧
    exDbRec.users.find? (fun v => v.id == "p2")
      = some ⟨"p2", "patient", true, some "Pat Two", "d1", "Doctor One", 0⟩ ∧
    (∃ rec_, (auto_recommend_from_report exDbRec 9 "rc1" "r9" "p2"
        (Analysis.mk (some "High") (some "glucose critical"))).recommendations
        = exDbRec.recommendations ++ [rec_] ∧
      rec_.status = "active" ∧ rec_.patient_id = "p2" ∧ rec_.doctor_id = "d1") :=
  ⟨by decide, by decide,
    (c3_recommendation_gate exDbRec 9 "rc1" "r9" "p2" (Analysis.mk (some "High") (some "glucose critical"))).2.2.2
      ⟨"p2", "patient", true, some "Pat Two", "d1", "Doctor One", 0⟩
      (by decide) (by decide) (by decide) (by decide)⟩

/-- C4: evaluating the code at the failing input.  Both completed High
reports of patient p1 were created more than thirty days before the
evaluation time, yet the escalation still fires: the code computes the
thirty-day cutoff but never applies it to the report query, so reports of
any age count toward the threshold and the reason becomes follow_up with
the fixed multi-report summary. -/
theorem c4_window_not_applied :
    (exDbElevated.reports.all (fun r => decide (r.created_at + 30 * 86400 < 10000000))) = true ∧
    (auto_recommend_from_report exDbElevated 10000000 "rc4" "r3" "p1"
        (Analysis.mk (some "High") (some "s"))).recommendations.map
      (fun r => r.reason_type) = ["follow_up"] ∧
    (auto_recommend_from_report exDbElevated 10000000 "rc4" "r3" "p1"
        (Analysis.mk (some "High") (some "s"))).recommendations.map
      (fun r => r.summary)
      = ["Multiple reports with elevated risk in the past 30 days. Follow-up recommended."] := by
  decide

/-- C7 counterexample: a High verdict for a patient with an assigned doctor
does not always produce reason_type ai_escalation — with two completed
elevated reports on file the override yields follow_up instead. -/
theorem c7_counterexample :
    pyLower (pyOrElse (Analysis.mk (some "High") (some "x")).risk_level "") = "high" ∧
    (exDbElevated.users.find? (fun v => v.id == "p1")).map (fun u => u.assigned_doctor)
      = some "d1" ∧
    (auto_recommend_from_report exDbElevated 20000000 "rcx" "r4" "p1"
        (Analysis.mk (some "High") (some "x"))).recommendations.map
      (fun r => r.reason_type) = ["follow_up"] ∧
    ("follow_up" : String) ≠ "ai_escalation" := by
  decide

/-- C7 as amended: a High verdict with an assigned doctor creates a
recommendation with urgency urgent and status active, and with reason_type
ai_escalation unless at least two completed elevated reports trigger the
follow-up override; and every recommendation created by
generate_recommendation derives urgency from the risk level as
High to urgent, Low to normal, anything else to follow_up. -/
theorem c7_high_escalation :
    (∀ (db : DB) (now : Nat) (recId report_id user_id : String) (analysis : Analysis) (u : User),
      pyLower (pyOrElse analysis.risk_level "") = "high" →
      db.users.find? (fun v => v.id == user_id) = some u →
      u.assigned_doctor ≠ "" →
      (∀ r ∈ db.recommendations, r.id ≠ recId) →
      ∃ rec_, (auto_recommend_from_report db now recId report_id user_id analysis).recommendations
          = db.recommendations ++ [rec_] ∧
        rec_.urgency = "urgent" ∧ rec_.status = "active" ∧
        rec_.reason_type = (if elevatedCount db user_id ≥ 2 then "follow_up" else "ai_escalation")) ∧
    (∀ (db : DB) (now : Nat) (recId user_id doctor_id : String) (report_id : Option String)
        (reason_type risk_level summary doctor_name patient_name : String),
      (∀ r ∈ db.recommendations, r.id ≠ recId) →
      ∃ rec_, (generate_recommendation db now recId user_id doctor_id report_id reason_type
          risk_level summary doctor_name patient_name).recommendations
          = db.recommendations ++ [rec_] ∧
        rec_.urgency = (if pyLower risk_level = "high" then "urgent"
          else if pyLower risk_level = "low" then "normal" else "follow_up")) := by
  constructor
  · intro db now recId report_id user_id analysis u hrisk hu hdoc hfresh
    obtain ⟨rec_, h1, _, _, _, h4, _, hrl, hurg, hreason, _⟩ :=
      auto_recommend_creates db now recId report_id user_id analysis u (Or.inr hrisk) hu hdoc hfresh
    refine ⟨rec_, h1, ?_, h4, ?_⟩
    · rw [hurg, hrisk]
      rfl
    · rw [hreason, hrisk]
      have hinner : (if ("high" : String) = "high" then "ai_escalation" else "post_report")
          = "ai_escalation" := if_pos rfl
      rw [hinner]
  · intro db now recId user_id doctor_id report_id reason_type risk_level summary doctor_name patient_name hfresh
    have hfilter : db.recommendations.filter (fun r => decide (r.id ≠ recId))
        = db.recommendations :=
      List.filter_eq_self.mpr (fun a ha => decide_eq_true (hfresh a ha))
    simp only [generate_recommendation]
    exact ⟨_, by rw [hfilter], rfl⟩

/-- C7 witness: patient p2 assigned to d1 with no elevated history — the
High verdict yields ai_escalation and urgent — and a direct
generate_recommendation call with risk Medium derives urgency follow_up. -/
theorem c7_witness :
    (pyLower (pyOrElse (Analysis.mk (some "High") (some "w")).risk_level "") = "high" ∧
      (∃ rec_, (auto_recommend_from_report exDbRec 11 "rc7" "r7" "p2"
          (Analysis.mk (some "High") (some "w"))).recommendations
          = exDbRec.recommendations ++ [rec_] ∧
        rec_.urgency = "urgent" ∧ rec_.status = "active" ∧
        rec_.reason_type = (if elevatedCount exDbRec "p2" ≥ 2 then "follow_up" else "ai_escalation"))) ∧
    (∃ rec_, (generate_recommendation exDbRec 12 "rc8" "p2" "d1" none "follow_up"
        "Medium" "sum" "Doctor One" "Pat Two").recommendations
        = exDbRec.recommendations ++ [rec_] ∧
      rec_.urgency = (if pyLower "Medium" = "high" then "urgent"
        else if pyLower "Medium" = "low" then "normal" else "follow_up")) :=
  ⟨⟨by decide,
    c7_high_escalation.1 exDbRec 11 "rc7" "r7" "p2" (Analysis.mk (some "High") (some "w"))
      ⟨"p2", "patient", true, some "Pat Two", "d1", "Doctor One", 0⟩
      (by decide) (by decide) (by decide) (by decide)⟩,
    c7_high_escalation.2 exDbRec 12 "rc8" "p2" "d1" none "follow_up"
      "Medium" "sum" "Doctor One" "Pat Two" (by decide)⟩

/-- Marking a slot leaves every collection except slots unchanged. -/
theorem markSlot_proj (db : DB) (d : String) (o : Option String) :
    (markSlot db d o).appointments = db.appointments ∧
    (markSlot db d o).consultations = db.consultations ∧
    (markSlot db d o).recommendations = db.recommendations ∧
    (markSlot db d o).users = db.users := by
  simp only [markSlot]
  split
  · split
    · exact ⟨rfl, rfl, rfl, rfl⟩
    · exact ⟨rfl, rfl, rfl, rfl⟩
  · exact ⟨rfl, rfl, rfl, rfl⟩

/-- The recommendation step leaves appointments and consultations
unchanged. -/
theorem markRec_proj (db : DB) (cid : String) (o : Option String) :
    (markRecommendationBooked db cid o).appointments = db.appointments ∧
    (markRecommendationBooked db cid o).consultations = db.consultations := by
  simp only [markRecommendationBooked]
  split
  · split
    · exact ⟨rfl, rfl⟩
    · exact ⟨rfl, rfl⟩
  · exact ⟨rfl, rfl⟩

/-- When the supplied recommendation id is non-empty and the document exists,
the recommendation step maps the booked update over the collection. -/
theorem markRec_found (db : DB) (cid rid : String) (hrne : rid ≠ "")
    (hany : db.recommendations.any (fun r => r.id == rid) = true) :
    (markRecommendationBooked db cid (some rid)).recommendations
      = db.recommendations.map (fun r =>
          if r.id == rid then { r with status := "booked", consultation_id := cid } else r) := by
  have hpt : pyTruthy (some rid) = true := by
    simp [pyTruthy, hrne]
  simp only [markRecommendationBooked, hpt, if_true, Option.getD_some, hany]

/-- C8: once the patient update has landed, no later failure rolls it back;
a chat-initialization failure is swallowed and the call still returns the
selected doctor id; but a relationship-write failure makes the call return
None — which the manual endpoint surfaces as a 503 — despite the assignment
having been written. -/
theorem c8_no_rollback (db : DB) (now : Nat) (uid : String) (rf cf : Bool)
    (dd : DoctorLoad) (u : User)
    (hdd : get_least_loaded_doctor db = some dd)
    (hu : db.users.find? (fun v => v.id == uid) = some u) :
    ((assign_doctor_to_patient db now uid rf cf).2.users.find? (fun v => v.id == uid)
        = some (applyAssignment dd now u)) ∧
    (rf = false → (assign_doctor_to_patient db now uid rf cf).1 = some dd.id) ∧
    (rf = true → (assign_doctor_to_patient db now uid rf cf).1 = none) ∧
    (rf = true → u.assigned_doctor = "" →
      (manual_assign_doctor db now uid rf cf).1
        = .error ⟨503, "No doctors available at the moment. Please try again later."⟩) := by
  refine ⟨?_, ?_, ?_, ?_⟩
  · rw [assign_users db now uid rf cf dd u hdd hu,
      find?_map_guard _ _ _ (fun a => applyAssignment_id dd now uid a), hu]
    rfl
  · intro h
    subst h
    simp only [assign_doctor_to_patient, hdd, hu]
    rfl
  · intro h
    subst h
    simp only [assign_doctor_to_patient, hdd, hu]
    rfl
  · intro h h0
    subst h
    simp only [manual_assign_doctor, hu]
    rw [if_neg (not_not_intro h0)]
    simp only [assign_doctor_to_patient, hdd, hu]
    rfl

/-- C8 counterexample: with the relationship write failing, the service
returns None — surfaced by the endpoint as a 503 — even though the patient
record already carries the selected doctor dB; the claim that the call still
returns the selected doctor id is therefore false. -/
theorem c8_counterexample :
    (assign_doctor_to_patient exDbAssign 5 "p1" true false).1 = none ∧
    ((assign_doctor_to_patient exDbAssign 5 "p1" true false).2.users.find?
        (fun v => v.id == "p1")).map (fun u => u.assigned_doctor) = some "dB" ∧
    (none : Option String) ≠ some "dB" ∧
    (manual_assign_doctor exDbAssign 5 "p1" true false).1
      = .error ⟨503, "No doctors available at the moment. Please try again later."⟩ :=
  ⟨rfl, rfl, by decide, rfl⟩

/-- C8 witness: the amended statement instantiated with a failing
relationship write on the concrete directory. -/
theorem c8_witness :
    get_least_loaded_doctor exDbAssign = some ⟨"dB", "Doctor B", 0⟩ ∧
    exDbAssign.users.find? (fun v => v.id == "p1") = some exPatient1 ∧
    (((assign_doctor_to_patient exDbAssign 5 "p1" true false).2.users.find?
        (fun v => v.id == "p1"))
        = some (applyAssignment ⟨"dB", "Doctor B", 0⟩ 5 exPatient1) ∧
      (true = false → (assign_doctor_to_patient exDbAssign 5 "p1" true false).1
        = some (DoctorLoad.mk "dB" "Doctor B" 0).id) ∧
      (true = true → (assign_doctor_to_patient exDbAssign 5 "p1" true false).1 = none) ∧
      (true = true → exPatient1.assigned_doctor = "" →
        (manual_assign_doctor exDbAssign 5 "p1" true false).1
          = .error ⟨503, "No doctors available at the moment. Please try again later."⟩)) :=
  ⟨by decide, by decide,
    c8_no_rollback exDbAssign 5 "p1" true false ⟨"dB", "Doctor B", 0⟩ exPatient1
      (by decide) (by decide)⟩

/-- C9: a booking request with an empty doctor id, date or time is rejected
with a 400 before any write: the returned state is the input state, so no
appointment, consultation, slot or recommendation changes. -/
theorem c9_reject_before_write (db : DB) (caller : Caller) (body : BookBody)
    (cid rh aid : String) (now : Nat)
    (h : body.doctor_id = "" ∨ body.date = "" ∨ body.time = "") :
    book_consultation db caller body cid rh aid now
      = (.error ⟨400, "doctor_id, date, and time are required"⟩, db) := by
  simp only [book_consultation]
  rw [if_pos h]

/-- C9 witness: a booking body with an empty date is rejected and the state
is untouched. -/
theorem c9_witness :
    (exBodyNoDate.doctor_id = "" ∨ exBodyNoDate.date = "" ∨ exBodyNoDate.time = "") ∧
    book_consultation exDbBook exCaller exBodyNoDate "c9" "h9" "a9" 9
      = (.error ⟨400, "doctor_id, date, and time are required"⟩, exDbBook) :=
  ⟨by decide, c9_reject_before_write exDbBook exCaller exBodyNoDate "c9" "h9" "a9" 9 (by decide)⟩

/-- One successful booking call: it returns ok, appends one appointment and
one mutually linked consultation, and — when the body references an existing
recommendation — maps the booked update over the recommendations, so the
referenced document ends booked and linked to the new consultation,
whatever its previous status. -/
theorem book_call (db : DB) (caller : Caller) (body : BookBody)
    (cid rh aid : String) (now : Nat) (rid : String) (r : Recommendation)
    (hdoc : body.doctor_id ≠ "") (hdate : body.date ≠ "") (htime : body.time ≠ "")
    (hrid : body.recommendation_id = some rid) (hrne : rid ≠ "")
    (hfind : db.recommendations.find? (fun x => x.id == rid) = some r) :
    ∃ a1 db1, book_consultation db caller body cid rh aid now = (.ok a1, db1) ∧
      a1.id = aid ∧ a1.consultation_id = cid ∧ a1.status = "upcoming" ∧
      db1.appointments = db.appointments.filter (fun x => x.id ≠ aid) ++ [a1] ∧
      (∃ c1, db1.consultations = db.consultations.filter (fun x => x.id ≠ cid) ++ [c1] ∧
        c1.id = cid ∧ c1.appointment_id = aid ∧ c1.status = "scheduled") ∧
      db1.recommendations.find? (fun x => x.id == rid)
        = some { r with status := "booked", consultation_id := cid } := by
  have hval : ¬(body.doctor_id = "" ∨ body.date = "" ∨ body.time = "") := by
    rintro (h | h | h)
    · exact hdoc h
    · exact hdate h
    · exact htime h
  have hpr := List.find?_some hfind
  have hany : db.recommendations.any (fun x => x.id == rid) = true :=
    List.any_eq_true.mpr ⟨r, List.mem_of_find?_eq_some hfind, hpr⟩
  simp only [book_consultation]
  rw [if_neg hval]
  refine ⟨_, _, rfl, rfl, rfl, rfl, ?_, ?_, ?_⟩
  · show (markRecommendationBooked _ cid body.recommendation_id).appointments = _
    rw [(markRec_proj _ cid body.recommendation_id).1]
    show (markSlot db body.doctor_id body.slot_id).appointments.filter _ ++ _ = _
    rw [(markSlot_proj db body.doctor_id body.slot_id).1]
  · refine ⟨Consultation.mk cid aid
      (if caller.role = "patient" then caller.uid else body.patient_id)
      body.doctor_id (body.report_id.getD "") (body.recommendation_id.getD "")
      ("medimind-" ++ rh) ("https://meet.jit.si/" ++ ("medimind-" ++ rh))
      "scheduled" now 0, ?_, rfl, rfl, rfl⟩
    show (markRecommendationBooked _ cid body.recommendation_id).consultations = _
    rw [(markRec_proj _ cid body.recommendation_id).2]
    show (markSlot db body.doctor_id body.slot_id).consultations.filter _ ++ _ = _
    rw [(markSlot_proj db body.doctor_id body.slot_id).2.1]
  · show (markRecommendationBooked _ cid body.recommendation_id).recommendations.find? _ = _
    rw [hrid]
    rw [markRec_found _ cid rid hrne
      (by
        show (markSlot db body.doctor_id body.slot_id).recommendations.any _ = true
        rw [(markSlot_proj db body.doctor_id body.slot_id).2.2.1]
        exact hany)]
    show ((markSlot db body.doctor_id body.slot_id).recommendations.map _).find? _ = _
    rw [(markSlot_proj db body.doctor_id body.slot_id).2.2.1,
      find?_map_guard db.recommendations (fun x => x.id == rid)
        (fun x => { x with status := "booked", consultation_id := cid }) (fun x => rfl),
      hfind]
    simp [hpr]

/-- C5 counterexample: the booking flow transitions the referenced
recommendation to booked even though its status at call time is dismissed,
not active — refuting the only-if-active claim. -/
theorem c5_counterexample :
    exDbBook.recommendations.map (fun r => r.status) = ["dismissed"] ∧
    ("dismissed" : String) ≠ "active" ∧
    (book_consultation exDbBook exCaller exBody "cX" "hX" "aX" 3).2.recommendations.map
      (fun r => (r.status, r.consultation_id)) = [("booked", "cX")] := by
  decide

/-- C5 as amended: when book is called with a recommendationId that
references an existing recommendation, the recommendation is transitioned
to booked and linked to the new consultation regardless of its current
status; a second booking call with the same recommendationId applies the
transition again — relinking the recommendation to the second consultation —
and still succeeds in creating its own appointment and consultation. -/
theorem c5_rebooking (db : DB) (caller : Caller) (body : BookBody)
    (cid1 rh1 aid1 cid2 rh2 aid2 : String) (now1 now2 : Nat) (rid : String) (r : Recommendation)
    (hdoc : body.doctor_id ≠ "") (hdate : body.date ≠ "") (htime : body.time ≠ "")
    (hrid : body.recommendation_id = some rid) (hrne : rid ≠ "")
    (hfind : db.recommendations.find? (fun x => x.id == rid) = some r) :
    ∃ a1 db1 a2 db2,
      book_consultation db caller body cid1 rh1 aid1 now1 = (.ok a1, db1) ∧
      book_consultation db1 caller body cid2 rh2 aid2 now2 = (.ok a2, db2) ∧
      a1.id = aid1 ∧ a2.id = aid2 ∧
      db1.appointments = db.appointments.filter (fun x => x.id ≠ aid1) ++ [a1] ∧
      db2.appointments = db1.appointments.filter (fun x => x.id ≠ aid2) ++ [a2] ∧
      (∃ c1, db1.consultations = db.consultations.filter (fun x => x.id ≠ cid1) ++ [c1] ∧
        c1.id = cid1 ∧ c1.appointment_id = aid1) ∧
      (∃ c2, db2.consultations = db1.consultations.filter (fun x => x.id ≠ cid2) ++ [c2] ∧
        c2.id = cid2 ∧ c2.appointment_id = aid2) ∧
      db1.recommendations.find? (fun x => x.id == rid)
        = some { r with status := "booked", consultation_id := cid1 } ∧
      db2.recommendations.find? (fun x => x.id == rid)
        = some { r with status := "booked", consultation_id := cid2 } := by
  obtain ⟨a1, db1, hb1, ha1, _, _, happ1, ⟨c1, hc1, hc1i, hc1a, _⟩, hr1⟩ :=
    book_call db caller body cid1 rh1 aid1 now1 rid r hdoc hdate htime hrid hrne hfind
  obtain ⟨a2, db2, hb2, ha2, _, _, happ2, ⟨c2, hc2, hc2i, hc2a, _⟩, hr2⟩ :=
    book_call db1 caller body cid2 rh2 aid2 now2 rid
      { r with status := "booked", consultation_id := cid1 } hdoc hdate htime hrid hrne hr1
  exact ⟨a1, db1, a2, db2, hb1, hb2, ha1, ha2, happ1, happ2,
    ⟨c1, hc1, hc1i, hc1a⟩, ⟨c2, hc2, hc2i, hc2a⟩, hr1, hr2⟩

/-- C5 witness: rebooking the dismissed recommendation r1 on the concrete
store, with fresh ids for both calls. -/
theorem c5_witness :
    (exBody.doctor_id ≠ "" ∧ exBody.date ≠ "" ∧ exBody.time ≠ "" ∧
      exBody.recommendation_id = some "r1" ∧
      exDbBook.recommendations.find? (fun x => x.id == "r1")
        = some ⟨"r1", "p1", "d1", none, "post_report", "Medium", "follow_up", "s", "Doc", "Pat", "dismissed", "", 0⟩) ∧
    (∃ a1 db1 a2 db2,
      book_consultation exDbBook exCaller exBody "c1" "h1" "a1" 1 = (.ok a1, db1) ∧
      book_consultation db1 exCaller exBody "c2" "h2" "a2" 2 = (.ok a2, db2) ∧
      a1.id = "a1" ∧ a2.id = "a2" ∧
      db1.appointments = exDbBook.appointments.filter (fun x => x.id ≠ "a1") ++ [a1] ∧
      db2.appointments = db1.appointments.filter (fun x => x.id ≠ "a2") ++ [a2] ∧
      (∃ c1, db1.consultations = exDbBook.consultations.filter (fun x => x.id ≠ "c1") ++ [c1] ∧
        c1.id = "c1" ∧ c1.appointment_id = "a1") ∧
      (∃ c2, db2.consultations = db1.consultations.filter (fun x => x.id ≠ "c2") ++ [c2] ∧
        c2.id = "c2" ∧ c2.appointment_id = "a2") ∧
      db1.recommendations.find? (fun x => x.id == "r1")
        = some { Recommendation.mk "r1" "p1" "d1" none "post_report" "Medium" "follow_up" "s" "Doc" "Pat" "dismissed" "" 0
            with status := "booked", consultation_id := "c1" } ∧
      db2.recommendations.find? (fun x => x.id == "r1")
        = some { Recommendation.mk "r1" "p1" "d1" none "post_report" "Medium" "follow_up" "s" "Doc" "Pat" "dismissed" "" 0
            with status := "booked", consultation_id := "c2" }) :=
  ⟨⟨by decide, by decide, by decide, by decide, by decide⟩,
    c5_rebooking exDbBook exCaller exBody "c1" "h1" "a1" "c2" "h2" "a2" 1 2 "r1"
      ⟨"r1", "p1", "d1", none, "post_report", "Medium", "follow_up", "s", "Doc", "Pat", "dismissed", "", 0⟩
      (by decide) (by decide) (by decide) (by decide) (by decide) (by decide)⟩

/-- C6: when a status update sets an existing, authorized consultation to
completed or cancelled and the linked appointment exists, the same call
updates the appointment to the identical status — the consultation is never
left completed or cancelled with its appointment still upcoming. -/
theorem c6_status_propagation (db : DB) (now : Nat) (uid cid : String)
    (body : List (String × String)) (c : Consultation) (a : Appointment) (kv : String × String)
    (hc : db.consultations.find? (fun x => x.id == cid) = some c)
    (hauth : ¬(c.patient_id ≠ uid ∧ c.doctor_id ≠ uid))
    (hbody : (body.filter (fun p => p.1 == "status")).head? = some kv)
    (hs : kv.2 = "completed" ∨ kv.2 = "cancelled")
    (haid : c.appointment_id ≠ "")
    (ha : db.appointments.find? (fun x => x.id == c.appointment_id) = some a) :
    ∃ db1, update_consultation db now uid cid body = (.ok ("Consultation " ++ kv.2), db1) ∧
      db1.consultations.find? (fun x => x.id == cid)
        = some { c with status := kv.2, updated_at := now } ∧
      db1.appointments.find? (fun x => x.id == c.appointment_id)
        = some { a with status := kv.2 } := by
  have hvalid : kv.2 = "in_progress" ∨ kv.2 = "completed" ∨ kv.2 = "cancelled" := Or.inr hs
  have hpa := List.find?_some ha
  have hany : db.appointments.any (fun x => x.id == c.appointment_id) = true :=
    List.any_eq_true.mpr ⟨a, List.mem_of_find?_eq_some ha, hpa⟩
  have hstat : (if kv.2 = "completed" then "completed" else "cancelled") = kv.2 := by
    rcases hs with h | h
    · rw [h]
      rfl
    · rw [h]
      rfl
  simp only [update_consultation, hc, hbody]
  rw [if_neg hauth, if_neg (not_not_intro hvalid), if_pos ⟨haid, hs⟩]
  rw [if_pos hany, hstat]
  refine ⟨_, rfl, ?_, ?_⟩
  · rw [find?_map_guard db.consultations (fun x => x.id == cid)
        (fun x => { x with status := kv.2, updated_at := now }) (fun x => rfl), hc]
    simp [List.find?_some hc]
  · rw [find?_map_guard db.appointments (fun x => x.id == c.appointment_id)
        (fun x => { x with status := kv.2 }) (fun x => rfl), ha]
    simp [hpa]

/-- C6 witness: cancelling consultation c1 also cancels its linked
appointment a1. -/
theorem c6_witness :
    exDbCons.consultations.find? (fun x => x.id == "c1") = some exCons ∧
    (exCons.appointment_id ≠ "") ∧
    exDbCons.appointments.find? (fun x => x.id == exCons.appointment_id) = some exAppt ∧
    (∃ db1, update_consultation exDbCons 4 "p1" "c1" [("status", "cancelled")]
        = (.ok ("Consultation " ++ ("status", "cancelled").2), db1) ∧
      db1.consultations.find? (fun x => x.id == "c1")
        = some { exCons with status := ("status", "cancelled").2, updated_at := 4 } ∧
      db1.appointments.find? (fun x => x.id == exCons.appointment_id)
        = some { exAppt with status := ("status", "cancelled").2 }) :=
  ⟨by decide, by decide, by decide,
    c6_status_propagation exDbCons 4 "p1" "c1" [("status", "cancelled")] exCons exAppt
      ("status", "cancelled") (by decide) (by decide) (by decide) (by decide) (by decide) (by decide)⟩

/-- C10: for an existing consultation and an authorized caller, a body with
no status field is rejected with 400 and no state change; a status outside
in_progress, completed, cancelled — in particular scheduled — is rejected
with 400 and no state change; and the three listed statuses are accepted. -/
theorem c10_update_validation (db : DB) (now : Nat) (uid cid : String)
    (body : List (String × String)) (c : Consultation)
    (hc : db.consultations.find? (fun x => x.id == cid) = some c)
    (hauth : ¬(c.patient_id ≠ uid ∧ c.doctor_id ≠ uid)) :
    ((body.filter (fun p => p.1 == "status")).head? = none →
      update_consultation db now uid cid body = (.error ⟨400, "No valid fields"⟩, db)) ∧
    (∀ kv, (body.filter (fun p => p.1 == "status")).head? = some kv →
      ¬(kv.2 = "in_progress" ∨ kv.2 = "completed" ∨ kv.2 = "cancelled") →
      update_consultation db now uid cid body = (.error ⟨400, "Invalid status"⟩, db)) ∧
    (∀ kv, (body.filter (fun p => p.1 == "status")).head? = some kv →
      (kv.2 = "in_progress" ∨ kv.2 = "completed" ∨ kv.2 = "cancelled") →
      (c.appointment_id = "" ∨ db.appointments.any (fun x => x.id == c.appointment_id) = true) →
      ∃ db1, update_consultation db now uid cid body = (.ok ("Consultation " ++ kv.2), db1)) := by
  refine ⟨?_, ?_, ?_⟩
  · intro h
    simp only [update_consultation, hc, h]
    rw [if_neg hauth]
  · intro kv h hbad
    simp only [update_consultation, hc, h]
    rw [if_neg hauth, if_pos hbad]
  · intro kv h hok hlink
    simp only [update_consultation, hc, h]
    rw [if_neg hauth, if_neg (not_not_intro hok)]
    by_cases hq : c.appointment_id ≠ "" ∧ (kv.2 = "completed" ∨ kv.2 = "cancelled")
    · rw [if_pos hq]
      have hany : db.appointments.any (fun x => x.id == c.appointment_id) = true := by
        rcases hlink with h0 | h0
        · exact absurd h0 hq.1
        · exact h0
      rw [if_pos hany]
      exact ⟨_, rfl⟩
    · rw [if_neg hq]
      exact ⟨_, rfl⟩

/-- C10 witness: on the concrete store, a request to move consultation c1
back to scheduled is rejected with 400 and the state is unchanged. -/
theorem c10_witness :
    exDbCons.consultations.find? (fun x => x.id == "c1") = some exCons ∧
    ¬(("status", "scheduled").2 = "in_progress" ∨ ("status", "scheduled").2 = "completed" ∨
      ("status", "scheduled").2 = "cancelled") ∧
    update_consultation exDbCons 4 "p1" "c1" [("status", "scheduled")]
      = (.error ⟨400, "Invalid status"⟩, exDbCons) :=
  ⟨by decide, by decide,
    (c10_update_validation exDbCons 4 "p1" "c1" [("status", "scheduled")] exCons
      (by decide) (by decide)).2.1 ("status", "scheduled") (by decide) (by decide)⟩

end MediMind
